import Mathlib

/-!
Verification development for the FleetPy ride-pooling batch-optimization
fleet control base class
(`src/fleetctrl/RidePoolingBatchOptimizationFleetControlBase.py`).

The controller state is shallowly embedded: Python dicts become association
lists over `Nat` keys, simulation times become `Int`, and every call the
controller makes to the external Batch Optimizer (`RPBO_Module`) is recorded
as an event in a log, since the optimizer's internal database is out of scope.
Operations that can raise a `KeyError` in Python (unguarded dict access)
return `Option`; operations whose dict accesses are all guarded by
`try/except KeyError` or `.get` are total functions.
-/

set_option autoImplicit false
set_option linter.unusedVariables false

namespace FleetPy

/-! ## Association-list model of Python dicts -/

/-- Lookup in a Python-dict model: first binding of the key wins. -/
def dlookup {α : Type} : List (Nat × α) → Nat → Option α
  | [], _ => none
  | (k, v) :: rest, key => if k = key then some v else dlookup rest key

/-- Remove every binding of a key (`del d[k]` guarded by `except KeyError`). -/
def derase {α : Type} : List (Nat × α) → Nat → List (Nat × α)
  | [], _ => []
  | (k, v) :: rest, key => if k = key then derase rest key else (k, v) :: derase rest key

/-- Overwriting insertion (`d[k] = v`). -/
def dinsert {α : Type} (key : Nat) (v : α) (l : List (Nat × α)) : List (Nat × α) :=
  (key, v) :: derase l key

theorem dlookup_dinsert_self {α : Type} (l : List (Nat × α)) (k : Nat) (v : α) :
    dlookup (dinsert k v l) k = some v := by
  simp [dinsert, dlookup]

theorem dlookup_dinsert_ne {α : Type} (l : List (Nat × α)) (k k' : Nat) (v : α)
    (h : k ≠ k') : dlookup (dinsert k v l) k' = dlookup l k' := by
  simp only [dinsert, dlookup, if_neg h]
  induction l with
  | nil => rfl
  | cons p rest ih =>
    obtain ⟨pk, pv⟩ := p
    by_cases hk : pk = k
    · subst hk
      simp [derase, dlookup, if_neg h, ih]
    · simp only [derase, if_neg hk, dlookup]
      by_cases hk' : pk = k'
      · simp [hk']
      · simp [hk', ih]

theorem dlookup_derase_self {α : Type} (l : List (Nat × α)) (k : Nat) :
    dlookup (derase l k) k = none := by
  induction l with
  | nil => rfl
  | cons p rest ih =>
    obtain ⟨pk, pv⟩ := p
    by_cases hk : pk = k
    · simp [derase, hk, ih]
    · simp [derase, hk, dlookup, ih]

theorem dlookup_derase_ne {α : Type} (l : List (Nat × α)) (k k' : Nat) (h : k ≠ k') :
    dlookup (derase l k) k' = dlookup l k' := by
  induction l with
  | nil => rfl
  | cons p rest ih =>
    obtain ⟨pk, pv⟩ := p
    by_cases hk : pk = k
    · subst hk
      simp [derase, dlookup, if_neg h, ih]
    · simp only [derase, if_neg hk, dlookup]
      by_cases hk' : pk = k'
      · simp [hk']
      · simp [hk', ih]

theorem derase_derase {α : Type} (l : List (Nat × α)) (k : Nat) :
    derase (derase l k) k = derase l k := by
  induction l with
  | nil => rfl
  | cons p rest ih =>
    obtain ⟨pk, pv⟩ := p
    by_cases hk : pk = k
    · simp [derase, hk, ih]
    · simp [derase, hk, ih]

theorem derase_dinsert_self {α : Type} (l : List (Nat × α)) (k : Nat) (v : α) :
    derase (dinsert k v l) k = derase l k := by
  simp [dinsert, derase, derase_derase]

theorem dinsert_dinsert_self {α : Type} (l : List (Nat × α)) (k : Nat) (v : α) :
    dinsert k v (dinsert k v l) = dinsert k v l := by
  simp [dinsert, derase, derase_derase]

/-! ## Data model -/

/-- One customer offer (`TravellerOffer(rid, op_id, wait, drive, fare)` from
`FleetSimulationBase`; outside `src/`, modelled from the spec: an offer
carries wait time, ride duration and fare, or has all temporal fields absent
for the "service declined" sentinel). -/
structure TravellerOffer where
  rid : Nat
  op_id : Nat
  offered_waiting_time : Option Int
  offered_driving_time : Option Int
  fare : Option Int
  deriving DecidableEq

/-- One plan request (`PlanRequest` lives outside `src/`; its fields and
mutators used by the controller are modelled from the spec §3: identity,
pickup window, reservation flag, assignment snapshot, pickup record, offer
reference, and the `Confirmed` lifecycle mark). -/
structure PlanRequest where
  rid : Nat
  rq_time : Int
  t_pu_earliest : Int
  t_pu_latest : Int
  reservation_flag : Bool
  pu_time : Option Int
  do_time : Option Int
  pickup : Option (Nat × Int)
  offer : Option TravellerOffer
  confirmed : Bool
  deriving DecidableEq

/-- A vehicle plan, abstracted to its derived pax-info mapping
(request id to pickup/dropoff time), which is the only part of
`VehiclePlan` the controller code under `src/` reads. -/
structure VehiclePlan where
  pax_info : List (Nat × Int × Int)
  deriving DecidableEq

/-- The empty plan `VehiclePlan(veh_obj, t, routing_engine, [])`. -/
def emptyPlan : VehiclePlan := VehiclePlan.mk []

/-- Request ids carried by a plan (keys of its pax-info mapping). -/
def paxRids (p : VehiclePlan) : List Nat := p.pax_info.map (fun x => x.1)

/-- Modelled from the spec: `get_assigned_rids_from_vehplan` (from
`GeneralPoolingFunctions`, outside `src/`) returns the request ids served by
a plan, and an absent plan serves no requests. -/
def get_assigned_rids_from_vehplan : Option VehiclePlan → List Nat
  | none => []
  | some p => paxRids p

/-- One notification from the controller to the Batch Optimizer
(`RPBO_Module`) or an optimizer-side state change; the optimizer itself is an
external collaborator, so the controller model only logs these calls. -/
inductive RPBOEvent where
  | addNewRequest (rid : Nat) (is_allready_assigned : Bool)
  | setRequestAssigned (rid : Nat)
  | delRequest (rid : Nat)
  | setDataBaseInCaseOfBoarding (rid : Nat) (vid : Nat)
  | setDataBaseInCaseOfAlighting (rid : Nat) (vid : Nat)
  | register_change_in_time_constraints (rid : Nat) (assigned_vid : Option Nat)
      (exceeds_former_time_windows : Bool)
  | computeNewVehicleAssignments (t : Int) (vid_finished_VRLs : List (Nat × List Nat))
      (build_from_scratch : Bool) (new_travel_times : Bool)
  | set_assignment (vid : Nat) (plan : Option VehiclePlan) (is_external_vehicle_plan : Bool)
  | lock_request_to_vehicle (rid : Nat) (vid : Nat)
  | clearDataBases
  deriving DecidableEq

/-- True exactly for `lock_request_to_vehicle` notifications. -/
def isLockEvent : RPBOEvent → Bool
  | RPBOEvent.lock_request_to_vehicle _ _ => true
  | _ => false

/-- Controller-owned state of `RidePoolingBatchOptimizationFleetControlBase`.
`rpbo_events` logs calls to the external optimizer (newest first);
`plan_updates` logs in-place vehicle-plan constraint updates
(`update_prq_hard_constraints` is outside `src/`, modelled from the spec as
a keep-feasible update event `(vid, rid, keep_feasible)`); `output_records`
logs the dynamic fleet-control output written after an optimisation step. -/
structure FleetCtrlState where
  sim_time : Int
  optimisation_time_step : Int
  rq_dict : List (Nat × PlanRequest)
  rid_to_assigned_vid : List (Nat × Nat)
  vid_with_reserved_rids : List (Nat × List Nat)
  active_request_offers : List (Nat × TravellerOffer)
  veh_plans : List VehiclePlan
  new_requests : List Nat
  requests_that_changed : List Nat
  vid_finished_VRLs : List (Nat × List Nat)
  new_travel_times_loaded : Bool
  rpbo_events : List RPBOEvent
  plan_updates : List (Nat × Nat × Bool)
  output_records : List Int
  deriving DecidableEq

/-- Fresh controller state with `n` vehicles, all on the empty plan. -/
def initState (n : Nat) (t0 : Int) (step : Int) : FleetCtrlState where
  sim_time := t0
  optimisation_time_step := step
  rq_dict := []
  rid_to_assigned_vid := []
  vid_with_reserved_rids := []
  active_request_offers := []
  veh_plans := List.replicate n emptyPlan
  new_requests := []
  requests_that_changed := []
  vid_finished_VRLs := []
  new_travel_times_loaded := false
  rpbo_events := []
  plan_updates := []
  output_records := []

/-- Append a notification to the optimizer-call log. -/
def emitEvent (e : RPBOEvent) (s : FleetCtrlState) : FleetCtrlState :=
  { s with rpbo_events := e :: s.rpbo_events }

/-- The plan currently applied to vehicle `vid` (`self.veh_plans[vid]`). -/
def getVehPlan (s : FleetCtrlState) (vid : Nat) : VehiclePlan :=
  (s.veh_plans[vid]?).getD emptyPlan

/-! ## Lifecycle operations -/

/-- `user_request(rq, sim_time)`: builds the `PlanRequest` (construction
parameters are outside the claims, so the constructed request is taken as
input), inserts it into `rq_dict`, notifies the optimizer, and marks the
request new-this-cycle. -/
def user_request (prq : PlanRequest) (t : Int) (s : FleetCtrlState) : FleetCtrlState :=
  let s1 := { s with sim_time := t }
  { s1 with
    rq_dict := dinsert prq.rid prq s1.rq_dict
    rpbo_events := RPBOEvent.addNewRequest prq.rid false :: s1.rpbo_events
    new_requests := if prq.rid ∈ s1.new_requests then s1.new_requests else prq.rid :: s1.new_requests }

/-- Modelled from the spec: `FleetControlBase.user_confirms_booking` (the
`super()` call, outside `src/`) transitions the request to `Confirmed`;
no-op when the request is absent. -/
def superConfirm (rid : Nat) (s : FleetCtrlState) : FleetCtrlState :=
  match dlookup s.rq_dict rid with
  | some prq => { s with rq_dict := dinsert rid { prq with confirmed := true } s.rq_dict }
  | none => s

/-- `user_confirms_booking(rid, simulation_time)`: `super()` confirm, then if
the request is assigned, present and reservation-flagged it is appended to
the per-vehicle reservation index; the optimizer is told the request is
locked in (`setRequestAssigned`); the active offer is deleted (guarded). -/
def user_confirms_booking (rid : Nat) (t : Int) (s : FleetCtrlState) : FleetCtrlState :=
  let s0 := superConfirm rid s
  let s1 := { s0 with sim_time := t }
  let s2 :=
    match dlookup s1.rid_to_assigned_vid rid with
    | none => s1
    | some vid =>
      match dlookup s1.rq_dict rid with
      | none => s1
      | some prq =>
        if prq.reservation_flag then
          { s1 with vid_with_reserved_rids :=
              match dlookup s1.vid_with_reserved_rids vid with
              | some l => dinsert vid (l ++ [rid]) s1.vid_with_reserved_rids
              | none => dinsert vid [rid] s1.vid_with_reserved_rids }
        else s1
  let s3 := emitEvent (RPBOEvent.setRequestAssigned rid) s2
  { s3 with active_request_offers := derase s3.active_request_offers rid }

/-- `user_cancels_request(rid, simulation_time)`: removes the request from
the reservation index (if reservation-flagged and assigned), from `rq_dict`,
from the assignment index and from the active offers — every removal guarded
by `except KeyError` in the source, hence a total function — and tells the
optimizer to delete the request. -/
def user_cancels_request (rid : Nat) (t : Int) (s : FleetCtrlState) : FleetCtrlState :=
  let s1 := { s with sim_time := t }
  let res :=
    match dlookup s1.rid_to_assigned_vid rid with
    | none => s1.vid_with_reserved_rids
    | some prev_vid =>
      match dlookup s1.rq_dict rid with
      | none => s1.vid_with_reserved_rids
      | some prq =>
        if prq.reservation_flag then
          let lst := (dlookup s1.vid_with_reserved_rids prev_vid).getD []
          if rid ∈ lst then
            let lst' := lst.erase rid
            if lst' = [] then derase s1.vid_with_reserved_rids prev_vid
            else dinsert prev_vid lst' s1.vid_with_reserved_rids
          else s1.vid_with_reserved_rids
        else s1.vid_with_reserved_rids
  { s1 with
    vid_with_reserved_rids := res
    rq_dict := derase s1.rq_dict rid
    rid_to_assigned_vid := derase s1.rid_to_assigned_vid rid
    rpbo_events := RPBOEvent.delRequest rid :: s1.rpbo_events
    active_request_offers := derase s1.active_request_offers rid }

/-- `acknowledge_boarding(rid, vid, simulation_time)`: the access
`self.rq_dict[rid]` is unguarded, so an unknown `rid` raises `KeyError`
(`none`); otherwise the pickup is recorded on the request (`set_pickup`,
modelled from the spec as storing the boarding vehicle and timestamp) and
the optimizer is notified. No check relates `vid` to the assignment index. -/
def acknowledge_boarding (rid : Nat) (vid : Nat) (t : Int) (s : FleetCtrlState) :
    Option FleetCtrlState :=
  match dlookup s.rq_dict rid with
  | none => none
  | some prq =>
    some { s with
      sim_time := t
      rq_dict := dinsert rid { prq with pickup := some (vid, t) } s.rq_dict
      rpbo_events := RPBOEvent.setDataBaseInCaseOfBoarding rid vid :: s.rpbo_events }

/-- `acknowledge_alighting(rid, vid, simulation_time)`: notifies the
optimizer, then `del self.rq_dict[rid]` — unguarded, so an absent request
raises `KeyError` (`none`) — and deletes the assignment-index entry guarded
by `except KeyError`. -/
def acknowledge_alighting (rid : Nat) (vid : Nat) (t : Int) (s : FleetCtrlState) :
    Option FleetCtrlState :=
  match dlookup s.rq_dict rid with
  | none => none
  | some _ =>
    some { s with
      sim_time := t
      rq_dict := derase s.rq_dict rid
      rid_to_assigned_vid := derase s.rid_to_assigned_vid rid
      rpbo_events := RPBOEvent.setDataBaseInCaseOfAlighting rid vid :: s.rpbo_events }

/-- The `exceed_tw` computation of `change_prq_time_constraints`: `False`
exactly when the new latest pickup is at most the old one and the new
earliest pickup, when given, is at least the old one. -/
def exceedsTW (prq : PlanRequest) (new_lpt : Int) (new_ept : Option Int) : Bool :=
  if new_lpt ≤ prq.t_pu_latest then
    match new_ept with
    | none => false
    | some e => if prq.t_pu_earliest ≤ e then false else true
  else true

/-- Modelled from the spec: `PlanRequest.set_new_pickup_time_constraint`
(outside `src/`) updates the pickup window, keeping the old earliest pickup
when none is given. -/
def set_new_pickup_time_constraint (prq : PlanRequest) (new_lpt : Int)
    (new_ept : Option Int) : PlanRequest :=
  { prq with
    t_pu_latest := new_lpt
    t_pu_earliest := (new_ept.getD prq.t_pu_earliest) }

/-- `change_prq_time_constraints(sim_time, rid, new_lpt, new_ept)`:
`self.rq_dict[rid]` is unguarded (`none` on an unknown request); the
exceedance flag is computed against the old window; the assigned vehicle's
plan — when one exists — is updated in keep-feasible mode (logged in
`plan_updates`); the optimizer is notified in every case. -/
def change_prq_time_constraints (t : Int) (rid : Nat) (new_lpt : Int)
    (new_ept : Option Int) (s : FleetCtrlState) : Option FleetCtrlState :=
  match dlookup s.rq_dict rid with
  | none => none
  | some prq =>
    let exceed_tw := exceedsTW prq new_lpt new_ept
    let prq' := set_new_pickup_time_constraint prq new_lpt new_ept
    let s1 := { s with rq_dict := dinsert rid prq' s.rq_dict }
    let ass_vid := dlookup s1.rid_to_assigned_vid rid
    let s2 :=
      match ass_vid with
      | some vid => { s1 with plan_updates := (vid, rid, true) :: s1.plan_updates }
      | none => s1
    some (emitEvent (RPBOEvent.register_change_in_time_constraints rid ass_vid exceed_tw) s2)

/-! ## Assignment application -/

/-- The per-request loop of `assign_vehicle_plan`: for each rid carried by
the plan, `self.rq_dict[rid].set_assigned(pax_info)` stamps the pickup and
dropoff times (unguarded access: `none` if the request is unknown) and the
assignment index is pointed at the vehicle. -/
def applyPlanRids (vid : Nat) (plan : VehiclePlan) :
    List Nat → FleetCtrlState → Option FleetCtrlState
  | [], s => some s
  | rid :: rest, s =>
    match dlookup s.rq_dict rid with
    | none => none
    | some prq =>
      match dlookup plan.pax_info rid with
      | none => none
      | some pt =>
        applyPlanRids vid plan rest
          { s with
            rq_dict :=
              dinsert rid { prq with pu_time := some pt.1, do_time := some pt.2 } s.rq_dict
            rid_to_assigned_vid := dinsert rid vid s.rid_to_assigned_vid }

/-- `assign_vehicle_plan(veh_obj, vehicle_plan, sim_time, force_assign,
add_arg)`: the route-leg construction and the vehicle-side assignment act on
the simulation vehicle, outside this model; the controller replaces its
stored plan, stamps every carried request, and pushes the assignment to the
optimizer — flagged as externally sourced when `add_arg` is `None`
(`internal = false`; the stop-stripping `copy_and_remove_empty_planstops`
does not change the pax-info abstraction). -/
def assign_vehicle_plan (vid : Nat) (plan : VehiclePlan) (t : Int) (internal : Bool)
    (s : FleetCtrlState) : Option FleetCtrlState :=
  let s1 := { s with veh_plans := s.veh_plans.set vid plan }
  (applyPlanRids vid plan (paxRids plan) s1).map
    (fun s2 => emitEvent (RPBOEvent.set_assignment vid (some plan) (!internal)) s2)

/-- One iteration of the `set_new_assignments` loop for vehicle `vid`:
skip (but clear the optimizer's record) when neither the proposed nor the
current plan carries requests; otherwise apply the proposed plan, or an
explicit empty plan when the optimizer proposed none. -/
def processVid (sol : Nat → Option VehiclePlan) (vid : Nat) (s : FleetCtrlState) :
    Option FleetCtrlState :=
  let assigned_plan := sol vid
  if get_assigned_rids_from_vehplan assigned_plan = [] ∧
      get_assigned_rids_from_vehplan (some (getVehPlan s vid)) = [] then
    some (emitEvent (RPBOEvent.set_assignment vid none false) s)
  else
    match assigned_plan with
    | some p => assign_vehicle_plan vid p s.sim_time true s
    | none => assign_vehicle_plan vid emptyPlan s.sim_time true s

/-- Fold of `processVid` over a list of vehicle ids. -/
def processVids (sol : Nat → Option VehiclePlan) :
    List Nat → FleetCtrlState → Option FleetCtrlState
  | [], s => some s
  | vid :: rest, s =>
    match processVid sol vid s with
    | none => none
    | some s' => processVids sol rest s'

/-- `set_new_assignments()`: iterates over all vehicles in vehicle-id order,
reading the optimizer's solution `sol` (`getOptimisationSolution`). -/
def set_new_assignments (sol : Nat → Option VehiclePlan) (s : FleetCtrlState) :
    Option FleetCtrlState :=
  processVids sol (List.range s.veh_plans.length) s

/-- `lock_rid_vid_assignments()`: locks every new-this-cycle request present
in the optimizer's winning solution to its vehicle. -/
def lock_rid_vid_assignments (sol : Nat → Option VehiclePlan) (s : FleetCtrlState) :
    FleetCtrlState :=
  (List.range s.veh_plans.length).foldl
    (fun st vid =>
      (get_assigned_rids_from_vehplan (sol vid)).foldl
        (fun st2 rid =>
          if rid ∈ st2.new_requests then
            emitEvent (RPBOEvent.lock_request_to_vehicle rid vid) st2
          else st2) st) s

/-- `clearDataBases()` on the controller: resets all transient per-cycle
batches. -/
def clearDataBases (s : FleetCtrlState) : FleetCtrlState :=
  { s with
    new_requests := []
    requests_that_changed := []
    vid_finished_VRLs := []
    new_travel_times_loaded := false }

/-- `_call_time_trigger_request_batch(simulation_time)`: updates the clock;
when the time is a multiple of the optimisation time step it invokes the
optimizer's `computeNewVehicleAssignments` (incremental, with the
finished-legs map and the travel-time flag), applies the solution, clears
the controller's and the optimizer's transient batches, and writes one
dynamic-output record. -/
def call_time_trigger_request_batch (t : Int) (sol : Nat → Option VehiclePlan)
    (s : FleetCtrlState) : Option FleetCtrlState :=
  let s1 := { s with sim_time := t }
  if t % s.optimisation_time_step = 0 then
    let s2 := emitEvent
      (RPBOEvent.computeNewVehicleAssignments t s1.vid_finished_VRLs false
        s1.new_travel_times_loaded) s1
    match set_new_assignments sol s2 with
    | none => none
    | some s3 =>
      let s4 := emitEvent RPBOEvent.clearDataBases (clearDataBases s3)
      some { s4 with output_records := t :: s4.output_records }
  else some s1

/-! ## Offer generation -/

/-- `_create_user_offer(prq, simulation_time, assigned_vehicle_plan)`: with a
plan, reads the request's pickup/dropoff from the plan's pax-info (`none` on
a missing entry: the tuple unpacking of `pax_info.get` faults), quotes
wait = pickup − request time, ride duration = dropoff − pickup and the fare
(`_compute_fare` is outside `src/`, modelled from the spec as a delegated
fare function `fareF`), records the offer on the request and stores it as
active; without a plan, stores the declined sentinel. -/
def create_user_offer (prq : PlanRequest) (t : Int)
    (assigned_vehicle_plan : Option VehiclePlan)
    (fareF : Int → PlanRequest → VehiclePlan → Int) (s : FleetCtrlState) :
    Option (TravellerOffer × FleetCtrlState) :=
  match assigned_vehicle_plan with
  | some plan =>
    match dlookup plan.pax_info prq.rid with
    | none => none
    | some pt =>
      let offer : TravellerOffer :=
        { rid := prq.rid, op_id := 0,
          offered_waiting_time := some (pt.1 - prq.rq_time),
          offered_driving_time := some (pt.2 - pt.1),
          fare := some (fareF t prq plan) }
      some (offer,
        { s with
          rq_dict := dinsert prq.rid { prq with offer := some offer } s.rq_dict
          active_request_offers := dinsert prq.rid offer s.active_request_offers })
  | none =>
    let offer : TravellerOffer :=
      { rid := prq.rid, op_id := 0, offered_waiting_time := none,
        offered_driving_time := none, fare := none }
    some (offer, { s with active_request_offers := dinsert prq.rid offer s.active_request_offers })

/-- `get_current_offer(rid)`: the stored active offer, or `None`. -/
def get_current_offer (rid : Nat) (s : FleetCtrlState) : Option TravellerOffer :=
  dlookup s.active_request_offers rid

/-- A concrete immediate (non-reservation) plan request. -/
def exPrq : PlanRequest where
  rid := 0
  rq_time := 0
  t_pu_earliest := 0
  t_pu_latest := 600
  reservation_flag := false
  pu_time := none
  do_time := none
  pickup := none
  offer := none
  confirmed := false

/-! ## Frame lemmas for assignment application -/

theorem applyPlanRids_frame (vid : Nat) (plan : VehiclePlan) :
    ∀ (rids : List Nat) (s s' : FleetCtrlState),
      applyPlanRids vid plan rids s = some s' →
      s'.veh_plans = s.veh_plans ∧ s'.rpbo_events = s.rpbo_events
      ∧ s'.output_records = s.output_records := by
  intro rids
  induction rids with
  | nil =>
    intro s s' h
    simp [applyPlanRids] at h
    subst h
    exact ⟨rfl, rfl, rfl⟩
  | cons r rest ih =>
    intro s s' h
    simp only [applyPlanRids] at h
    cases h1 : dlookup s.rq_dict r with
    | none => simp only [h1] at h; exact Option.noConfusion h
    | some prq =>
      simp only [h1] at h
      cases h2 : dlookup plan.pax_info r with
      | none => simp only [h2] at h; exact Option.noConfusion h
      | some pt =>
        simp only [h2] at h
        have hres := ih _ _ h
        exact hres

theorem assign_vehicle_plan_spec (vid : Nat) (plan : VehiclePlan) (t : Int)
    (internal : Bool) (s s' : FleetCtrlState)
    (h : assign_vehicle_plan vid plan t internal s = some s') :
    s'.veh_plans = s.veh_plans.set vid plan
    ∧ s'.rpbo_events = RPBOEvent.set_assignment vid (some plan) (!internal) :: s.rpbo_events
    ∧ s'.output_records = s.output_records := by
  simp only [assign_vehicle_plan] at h
  cases hap : applyPlanRids vid plan (paxRids plan)
      { s with veh_plans := s.veh_plans.set vid plan } with
  | none => simp only [hap, Option.map_none'] at h; exact Option.noConfusion h
  | some s2 =>
    simp only [hap, Option.map_some', Option.some.injEq] at h
    obtain ⟨f1, f2, f3⟩ := applyPlanRids_frame vid plan _ _ _ hap
    subst h
    exact ⟨f1, by simp [emitEvent, f2], by simp [emitEvent, f3]⟩

theorem processVid_spec (sol : Nat → Option VehiclePlan) (vid : Nat)
    (s s' : FleetCtrlState) (h : processVid sol vid s = some s') :
    s'.output_records = s.output_records
    ∧ s'.veh_plans.length = s.veh_plans.length
    ∧ (∀ e, e ∈ s.rpbo_events → e ∈ s'.rpbo_events)
    ∧ (∀ e, e ∈ s'.rpbo_events → e ∈ s.rpbo_events ∨ isLockEvent e = false)
    ∧ (∀ w, w ≠ vid → getVehPlan s' w = getVehPlan s w) := by
  simp only [processVid] at h
  split at h
  · injection h with h
    subst h
    refine ⟨rfl, rfl, ?_, ?_, ?_⟩
    · intro e he; exact List.mem_cons_of_mem _ he
    · intro e he
      rcases List.mem_cons.mp he with h1 | h1
      · subst h1; right; rfl
      · left; exact h1
    · intro w hw; rfl
  · cases hsol : sol vid with
    | some p =>
      simp only [hsol] at h
      obtain ⟨f1, f2, f3⟩ := assign_vehicle_plan_spec vid p s.sim_time true s s' h
      refine ⟨f3, ?_, ?_, ?_, ?_⟩
      · rw [f1, List.length_set]
      · intro e he; rw [f2]; exact List.mem_cons_of_mem _ he
      · intro e he
        rw [f2] at he
        rcases List.mem_cons.mp he with h1 | h1
        · subst h1; right; rfl
        · left; exact h1
      · intro w hw
        unfold getVehPlan
        rw [f1, List.getElem?_set_ne (Ne.symm hw)]
    | none =>
      simp only [hsol] at h
      obtain ⟨f1, f2, f3⟩ := assign_vehicle_plan_spec vid emptyPlan s.sim_time true s s' h
      refine ⟨f3, ?_, ?_, ?_, ?_⟩
      · rw [f1, List.length_set]
      · intro e he; rw [f2]; exact List.mem_cons_of_mem _ he
      · intro e he
        rw [f2] at he
        rcases List.mem_cons.mp he with h1 | h1
        · subst h1; right; rfl
        · left; exact h1
      · intro w hw
        unfold getVehPlan
        rw [f1, List.getElem?_set_ne (Ne.symm hw)]

theorem processVids_spec (sol : Nat → Option VehiclePlan) :
    ∀ (L : List Nat) (s s' : FleetCtrlState), processVids sol L s = some s' →
      s'.output_records = s.output_records
      ∧ s'.veh_plans.length = s.veh_plans.length
      ∧ (∀ e, e ∈ s.rpbo_events → e ∈ s'.rpbo_events)
      ∧ (∀ e, e ∈ s'.rpbo_events → e ∈ s.rpbo_events ∨ isLockEvent e = false)
      ∧ (∀ w, w ∉ L → getVehPlan s' w = getVehPlan s w) := by
  intro L
  induction L with
  | nil =>
    intro s s' h
    simp [processVids] at h
    subst h
    exact ⟨rfl, rfl, fun e he => he, fun e he => Or.inl he, fun w _ => rfl⟩
  | cons v rest ih =>
    intro s s' h
    simp only [processVids] at h
    cases hpv : processVid sol v s with
    | none => simp only [hpv] at h; exact Option.noConfusion h
    | some s1 =>
      simp only [hpv] at h
      obtain ⟨p1, p2, p3, p4, p5⟩ := processVid_spec sol v s s1 hpv
      obtain ⟨q1, q2, q3, q4, q5⟩ := ih s1 s' h
      refine ⟨q1.trans p1, q2.trans p2, ?_, ?_, ?_⟩
      · intro e he; exact q3 e (p3 e he)
      · intro e he
        rcases q4 e he with h1 | h1
        · rcases p4 e h1 with h2 | h2
          · exact Or.inl h2
          · exact Or.inr h2
        · exact Or.inr h1
      · intro w hw
        have hw1 : w ∉ rest := fun hx => hw (List.mem_cons_of_mem _ hx)
        have hw2 : w ≠ v := fun hx => hw (hx ▸ List.mem_cons_self v rest)
        rw [q5 w hw1, p5 w hw2]

theorem processVids_C4 (sol : Nat → Option VehiclePlan) :
    ∀ (L : List Nat) (s s' : FleetCtrlState), L.Nodup →
      processVids sol L s = some s' → ∀ vid, vid ∈ L →
      ((get_assigned_rids_from_vehplan (sol vid) = [] ∧ paxRids (getVehPlan s vid) = []) →
        getVehPlan s' vid = getVehPlan s vid
        ∧ RPBOEvent.set_assignment vid none false ∈ s'.rpbo_events)
      ∧ ((sol vid = none ∧ paxRids (getVehPlan s vid) ≠ [] ∧ vid < s.veh_plans.length) →
        getVehPlan s' vid = emptyPlan) := by
  intro L
  induction L with
  | nil =>
    intro s s' _ h vid hv
    exact absurd hv (List.not_mem_nil vid)
  | cons v rest ih =>
    intro s s' hnd h vid hv
    simp only [processVids] at h
    cases hpv : processVid sol v s with
    | none => simp only [hpv] at h; exact Option.noConfusion h
    | some s1 =>
      simp only [hpv] at h
      obtain ⟨p1, p2, p3, p4, p5⟩ := processVid_spec sol v s s1 hpv
      obtain ⟨q1, q2, q3, q4, q5⟩ := processVids_spec sol rest s1 s' h
      have hnd1 : v ∉ rest := (List.nodup_cons.mp hnd).1
      have hnd2 : rest.Nodup := (List.nodup_cons.mp hnd).2
      rcases List.mem_cons.mp hv with hveq | hvmem
      · subst hveq
        constructor
        · rintro ⟨hA1, hA2⟩
          have hcond : get_assigned_rids_from_vehplan (sol vid) = [] ∧
              get_assigned_rids_from_vehplan (some (getVehPlan s vid)) = [] := ⟨hA1, hA2⟩
          simp only [processVid, if_pos hcond] at hpv
          have hs1 : emitEvent (RPBOEvent.set_assignment vid none false) s = s1 :=
            (Option.some.injEq _ _).mp hpv
          refine ⟨?_, ?_⟩
          · rw [q5 vid hnd1, ← hs1]
            rfl
          · refine q3 _ ?_
            rw [← hs1]
            exact List.mem_cons_self _ _
        · rintro ⟨hB1, hB2, hB3⟩
          have hcond : ¬(get_assigned_rids_from_vehplan (none : Option VehiclePlan) = [] ∧
              get_assigned_rids_from_vehplan (some (getVehPlan s vid)) = []) := by
            rintro ⟨_, hx⟩
            exact hB2 hx
          simp only [processVid, hB1, if_neg hcond] at hpv
          obtain ⟨f1, f2, f3⟩ := assign_vehicle_plan_spec vid emptyPlan s.sim_time true s s1 hpv
          rw [q5 vid hnd1]
          unfold getVehPlan
          rw [f1, List.getElem?_set_self hB3]
          rfl
      · have hne : vid ≠ v := fun hx => hnd1 (hx ▸ hvmem)
        have hIH := ih s1 s' hnd2 h vid hvmem
        have hplan : getVehPlan s1 vid = getVehPlan s vid := p5 vid hne
        constructor
        · rintro ⟨hA1, hA2⟩
          have hres := hIH.1 ⟨hA1, by rw [hplan]; exact hA2⟩
          exact ⟨hres.1.trans hplan, hres.2⟩
        · rintro ⟨hB1, hB2, hB3⟩
          exact hIH.2 ⟨hB1, by rw [hplan]; exact hB2, by rw [p2]; exact hB3⟩

/-! ## Claim C4: applying a reoptimization result -/

/-- C4: when applying a reoptimization result, for every vehicle: if the
optimizer's proposed plan carries no requests and the vehicle's current plan
carries none, the vehicle keeps its plan (no assignment applied) but the
optimizer is still told to clear its assignment record
(`set_assignment vid None`); if no plan at all is proposed for a vehicle
whose current plan carries requests, an explicit empty plan is assigned. -/
theorem C4_set_new_assignments (sol : Nat → Option VehiclePlan) (s s' : FleetCtrlState)
    (h : set_new_assignments sol s = some s') (vid : Nat)
    (hv : vid < s.veh_plans.length) :
    ((get_assigned_rids_from_vehplan (sol vid) = [] ∧ paxRids (getVehPlan s vid) = []) →
      getVehPlan s' vid = getVehPlan s vid
      ∧ RPBOEvent.set_assignment vid none false ∈ s'.rpbo_events)
    ∧ ((sol vid = none ∧ paxRids (getVehPlan s vid) ≠ []) →
      getVehPlan s' vid = emptyPlan) := by
  have hcore := processVids_C4 sol (List.range s.veh_plans.length) s s'
    (List.nodup_range _) h vid (List.mem_range.mpr hv)
  exact ⟨hcore.1, fun hx => hcore.2 ⟨hx.1, hx.2, hv⟩⟩

/-- Concrete state for the C4 witness: vehicle 0's current plan carries
request 7, vehicle 1 is idle; the optimizer proposes nothing. -/
def c4State : FleetCtrlState :=
  { initState 2 0 60 with veh_plans := [VehiclePlan.mk [(7, (10, 20))], emptyPlan] }

/-- The state after applying the empty reoptimization result to `c4State`. -/
def c4Res : FleetCtrlState :=
  (set_new_assignments (fun _ => none) c4State).getD (initState 0 0 0)

/-- Witness for C4: vehicle 0 (current plan non-empty, no proposal) receives
the explicit empty plan; vehicle 1 (both empty) keeps its plan and the
optimizer is told to clear its record. -/
theorem C4_set_new_assignments_witness :
    getVehPlan c4Res 0 = emptyPlan
    ∧ getVehPlan c4Res 1 = getVehPlan c4State 1
    ∧ RPBOEvent.set_assignment 1 none false ∈ c4Res.rpbo_events := by
  have h0 := C4_set_new_assignments (fun _ => none) c4State c4Res (by decide) 0 (by decide)
  have h1 := C4_set_new_assignments (fun _ => none) c4State c4Res (by decide) 1 (by decide)
  exact ⟨h0.2 ⟨rfl, by decide⟩, (h1.1 ⟨rfl, by decide⟩).1, (h1.1 ⟨rfl, by decide⟩).2⟩

/-! ## Claim C1: the reoptimization cycle — corrected -/

/-- True when an optimizer-call log contains no lock notification. -/
def hasNoLock : Option FleetCtrlState → Bool
  | none => false
  | some s => s.rpbo_events.all (fun e => !isLockEvent e)

/-- Concrete state for the C1 counterexample: one vehicle, request 0 is
new-this-cycle, the optimisation time step is 1 (so time 0 triggers a
cycle). -/
def c1ceState : FleetCtrlState :=
  { initState 1 0 1 with
    rq_dict := [(0, exPrq)]
    new_requests := [0] }

/-- The optimizer's winning solution for the C1 counterexample: vehicle 0
serves request 0. -/
def c1ceSol : Nat → Option VehiclePlan :=
  fun v => if v = 0 then some (VehiclePlan.mk [(0, (10, 20))]) else none

/-- C1 counterexample: request 0 is new-this-cycle and appears in the
optimizer's winning solution for vehicle 0, so by step (3) of the claim the
cycle would have to lock it (`lock_request_to_vehicle`); the cycle completes
(the result is `some _`) yet its optimizer-call log contains no lock
notification — `_call_time_trigger_request_batch` never calls
`lock_rid_vid_assignments`. -/
theorem C1_counterexample :
    0 ∈ get_assigned_rids_from_vehplan (c1ceSol 0)
    ∧ 0 ∈ c1ceState.new_requests
    ∧ hasNoLock (call_time_trigger_request_batch 0 c1ceSol c1ceState) = true := by
  decide

/-- C1 amended: a reoptimization cycle (at a time that is a multiple of the
optimisation time step) invokes the optimizer's compute-assignments with the
accumulated finished-legs map, the incremental flag
(`build_from_scratch = False`) and the travel-time-invalidated flag, applies
the returned per-vehicle plans (`set_new_assignments`), clears all four
transient per-cycle batches, clears the optimizer's per-cycle state, and
writes one output record — but it does not lock new-this-cycle requests to
their vehicles: no `lock_request_to_vehicle` notification is added by the
cycle (`lock_rid_vid_assignments` exists but is not invoked). -/
theorem C1_trigger_amended (t : Int) (sol : Nat → Option VehiclePlan)
    (s s' : FleetCtrlState) (hm : t % s.optimisation_time_step = 0)
    (h : call_time_trigger_request_batch t sol s = some s') :
    RPBOEvent.computeNewVehicleAssignments t s.vid_finished_VRLs false
        s.new_travel_times_loaded ∈ s'.rpbo_events
    ∧ RPBOEvent.clearDataBases ∈ s'.rpbo_events
    ∧ s'.new_requests = [] ∧ s'.requests_that_changed = []
    ∧ s'.vid_finished_VRLs = [] ∧ s'.new_travel_times_loaded = false
    ∧ s'.output_records = t :: s.output_records
    ∧ (∀ e, e ∈ s'.rpbo_events → isLockEvent e = true → e ∈ s.rpbo_events)
    ∧ (∃ s2, set_new_assignments sol
          (emitEvent (RPBOEvent.computeNewVehicleAssignments t s.vid_finished_VRLs false
            s.new_travel_times_loaded) { s with sim_time := t }) = some s2
        ∧ s'.veh_plans = s2.veh_plans) := by
  simp only [call_time_trigger_request_batch, if_pos hm] at h
  cases hsn : set_new_assignments sol
      (emitEvent (RPBOEvent.computeNewVehicleAssignments t s.vid_finished_VRLs false
        s.new_travel_times_loaded) { s with sim_time := t }) with
  | none => rw [hsn] at h; exact Option.noConfusion h
  | some s3 =>
    rw [hsn] at h
    obtain ⟨q1, q2, q3, q4, q5⟩ := processVids_spec sol _ _ _ hsn
    injection h with h
    subst h
    refine ⟨?_, ?_, rfl, rfl, rfl, rfl, ?_, ?_, ⟨s3, rfl, rfl⟩⟩
    · exact List.mem_cons_of_mem _ (q3 _ (List.mem_cons_self _ _))
    · exact List.mem_cons_self _ _
    · show t :: s3.output_records = t :: s.output_records
      rw [show s3.output_records = s.output_records from q1]
    · intro e he hlock
      rcases List.mem_cons.mp he with h1 | h1
      · rw [h1] at hlock
        exact absurd hlock (by simp [isLockEvent])
      · rcases q4 e h1 with h2 | h2
        · rcases List.mem_cons.mp h2 with h3 | h3
          · rw [h3] at hlock
            exact absurd hlock (by simp [isLockEvent])
          · exact h3
        · rw [h2] at hlock
          exact Bool.noConfusion hlock

/-- The state after a successful cycle of the C1 witness. -/
def c1wRes : FleetCtrlState :=
  (call_time_trigger_request_batch 0 (fun _ => none) (initState 1 0 30)).getD
    (initState 0 0 0)

/-- Witness for the amended C1: a cycle at time 0 with step 30 on an idle
fleet clears the batches and writes its output record. -/
theorem C1_trigger_amended_witness :
    c1wRes.new_requests = [] ∧ c1wRes.vid_finished_VRLs = []
    ∧ RPBOEvent.clearDataBases ∈ c1wRes.rpbo_events
    ∧ c1wRes.output_records = 0 :: (initState 1 0 30).output_records := by
  have h := C1_trigger_amended 0 (fun _ => none) (initState 1 0 30) c1wRes
    (by decide) (by decide)
  exact ⟨h.2.2.1, h.2.2.2.2.1, h.2.1, h.2.2.2.2.2.2.1⟩

/-! ## Claim C10: the trigger at a non-multiple time only updates the clock -/

/-- C10: calling `_call_time_trigger_request_batch` at a simulation time that
is not an integer multiple of the optimisation time step leaves the whole
controller state unchanged except for the stored current simulation time:
no optimizer call, no plan reassignment, no batch clearing, no output
record. -/
theorem C10_trigger_frame (t : Int) (sol : Nat → Option VehiclePlan) (s : FleetCtrlState)
    (h : t % s.optimisation_time_step ≠ 0) :
    call_time_trigger_request_batch t sol s = some { s with sim_time := t } := by
  simp [call_time_trigger_request_batch, h]

/-- Witness for C10 at a concrete non-multiple time. -/
theorem C10_trigger_frame_witness :
    call_time_trigger_request_batch 7 (fun _ => none) (initState 2 0 30) =
      some { initState 2 0 30 with sim_time := 7 } :=
  C10_trigger_frame 7 (fun _ => none) (initState 2 0 30) (by decide)

/-! ## Claim C3: cancellation is idempotent -/

/-- C3: cancelling the same request twice in succession leaves the request
table, the assignment index, the reservation index, the active offers and
the clock exactly as a single cancellation does; the second call cannot
fault since every removal in the source is guarded by `except KeyError`
(the model is a total function). -/
theorem C3_cancel_idempotent (rid : Nat) (t : Int) (s : FleetCtrlState) :
    (user_cancels_request rid t (user_cancels_request rid t s)).rq_dict =
        (user_cancels_request rid t s).rq_dict
    ∧ (user_cancels_request rid t (user_cancels_request rid t s)).rid_to_assigned_vid =
        (user_cancels_request rid t s).rid_to_assigned_vid
    ∧ (user_cancels_request rid t (user_cancels_request rid t s)).vid_with_reserved_rids =
        (user_cancels_request rid t s).vid_with_reserved_rids
    ∧ (user_cancels_request rid t (user_cancels_request rid t s)).active_request_offers =
        (user_cancels_request rid t s).active_request_offers
    ∧ (user_cancels_request rid t (user_cancels_request rid t s)).sim_time =
        (user_cancels_request rid t s).sim_time := by
  refine ⟨?_, ?_, ?_, ?_, ?_⟩ <;>
    simp [user_cancels_request, dlookup_derase_self, derase_derase]

/-! ## Claim C5: acknowledge_alighting — corrected -/

/-- C5 counterexample: on a state whose request table does not contain the
request, `acknowledge_alighting` faults (`KeyError` on the unguarded
`del self.rq_dict[rid]`), contradicting the claim that it never faults when
an entry is already absent. -/
theorem C5_counterexample :
    acknowledge_alighting 0 0 5 (initState 1 0 60) = none := by
  decide

/-- C5 amended: when the request is present in the request table,
`acknowledge_alighting` notifies the Batch Optimizer and removes the request
from the request table and from the assignment index; the assignment-index
removal is an idempotent no-op on a missing entry (the equation holds with
no assumption about the index), but a request missing from the request
table makes the call fault. -/
theorem C5_alighting_amended (rid vid : Nat) (t : Int) (s : FleetCtrlState)
    (prq : PlanRequest) (h : dlookup s.rq_dict rid = some prq) :
    acknowledge_alighting rid vid t s =
      some { s with
        sim_time := t
        rq_dict := derase s.rq_dict rid
        rid_to_assigned_vid := derase s.rid_to_assigned_vid rid
        rpbo_events := RPBOEvent.setDataBaseInCaseOfAlighting rid vid :: s.rpbo_events } := by
  simp [acknowledge_alighting, h]

/-- Witness for the amended C5, on a state where the request is in the
request table but absent from the assignment index (showing the
index removal is a no-op, not a fault). -/
theorem C5_alighting_amended_witness :
    acknowledge_alighting 0 3 5 { initState 1 0 60 with rq_dict := [(0, exPrq)] } =
      some { initState 1 0 60 with
        sim_time := 5
        rq_dict := []
        rpbo_events := [RPBOEvent.setDataBaseInCaseOfAlighting 0 3] } := by
  have h := C5_alighting_amended 0 3 5 { initState 1 0 60 with rq_dict := [(0, exPrq)] }
    exPrq (by decide)
  rw [h]
  decide

/-! ## Claim C7: acknowledge_boarding — corrected -/

/-- Concrete state for the C7 counterexample: request 0 exists and is
assigned to vehicle 1. -/
def c7State : FleetCtrlState :=
  { initState 1 0 60 with
    rq_dict := [(0, exPrq)]
    rid_to_assigned_vid := [(0, 1)] }

/-- C7 counterexample: the claimed precondition includes that `vid` is the
vehicle recorded for `rid` in the assignment index, and that a violating
call raises an immediate fault. Here request 0 is assigned to vehicle 1,
yet `acknowledge_boarding(0, 2, …)` succeeds — the source never compares
`vid` with the assignment index. -/
theorem C7_counterexample :
    dlookup c7State.rid_to_assigned_vid 0 = some 1
    ∧ (acknowledge_boarding 0 2 5 c7State).isSome = true := by
  decide

/-- C7 amended: the enforced precondition of `acknowledge_boarding` is only
that the request exists in the request table — an unknown `rid` raises an
immediate fault; no check relates `vid` to the assignment index. Under the
precondition the pickup (vehicle and timestamp) is recorded on the request
and the Batch Optimizer is notified. -/
theorem C7_boarding_amended (rid vid : Nat) (t : Int) (sA sB : FleetCtrlState)
    (prq : PlanRequest)
    (hA : dlookup sA.rq_dict rid = none) (hB : dlookup sB.rq_dict rid = some prq) :
    acknowledge_boarding rid vid t sA = none
    ∧ acknowledge_boarding rid vid t sB =
      some { sB with
        sim_time := t
        rq_dict := dinsert rid { prq with pickup := some (vid, t) } sB.rq_dict
        rpbo_events := RPBOEvent.setDataBaseInCaseOfBoarding rid vid :: sB.rpbo_events } := by
  constructor <;> simp [acknowledge_boarding, hA, hB]

/-- Witness for the amended C7 at concrete states. -/
theorem C7_boarding_amended_witness :
    acknowledge_boarding 0 1 5 (initState 1 0 60) = none
    ∧ acknowledge_boarding 0 1 5 { initState 1 0 60 with rq_dict := [(0, exPrq)] } =
      some { initState 1 0 60 with
        sim_time := 5
        rq_dict := dinsert 0 { exPrq with pickup := some (1, 5) } [(0, exPrq)]
        rpbo_events := [RPBOEvent.setDataBaseInCaseOfBoarding 0 1] } :=
  C7_boarding_amended 0 1 5 (initState 1 0 60)
    { initState 1 0 60 with rq_dict := [(0, exPrq)] } exPrq (by decide) (by decide)

/-! ## Claim C6: offer distinguishability -/

/-- C6: `get_current_offer` distinguishes three outcomes. On a state with no
stored offer for a request it returns `none`; a decline-path
`_create_user_offer` call (no plan) stores and returns a sentinel whose
temporal fields are all absent; a plan-backed call stores and returns an
offer whose wait time is the plan's pickup time minus the request's
submission time, whose ride duration is dropoff minus pickup and whose fare
is present (the delegated fare function's value). -/
theorem C6_offer_distinguishable
    (s0 : FleetCtrlState) (rid0 : Nat)
    (h0 : dlookup s0.active_request_offers rid0 = none)
    (prq : PlanRequest) (plan : VehiclePlan) (pt : Int × Int) (t1 t2 : Int)
    (fareF : Int → PlanRequest → VehiclePlan → Int) (s1 s2 : FleetCtrlState)
    (hp : dlookup plan.pax_info prq.rid = some pt) :
    get_current_offer rid0 s0 = none
    ∧ (∃ o s', create_user_offer prq t1 none fareF s1 = some (o, s')
        ∧ o.offered_waiting_time = none ∧ o.offered_driving_time = none ∧ o.fare = none
        ∧ get_current_offer prq.rid s' = some o)
    ∧ (∃ o s', create_user_offer prq t2 (some plan) fareF s2 = some (o, s')
        ∧ o.offered_waiting_time = some (pt.1 - prq.rq_time)
        ∧ o.offered_driving_time = some (pt.2 - pt.1)
        ∧ o.fare = some (fareF t2 prq plan)
        ∧ get_current_offer prq.rid s' = some o) := by
  refine ⟨?_, ?_, ?_⟩
  · simpa [get_current_offer] using h0
  · refine ⟨_, _, rfl, rfl, rfl, rfl, ?_⟩
    simp [get_current_offer, create_user_offer, dlookup_dinsert_self]
  · simp only [create_user_offer, hp]
    refine ⟨_, _, rfl, rfl, rfl, rfl, ?_⟩
    simp [get_current_offer, dlookup_dinsert_self]

/-- Concrete plan for the C6 witness: request 0 picked up at 120, dropped
off at 300. -/
def c6Plan : VehiclePlan := VehiclePlan.mk [(0, (120, 300))]

/-- Witness for C6 at concrete inputs: wait = 120 − 0, duration = 300 − 120. -/
theorem C6_offer_distinguishable_witness :
    get_current_offer 0 (initState 1 0 60) = none
    ∧ (∃ o s', create_user_offer exPrq 5 none (fun _ _ _ => 250) (initState 1 0 60) =
          some (o, s')
        ∧ o.offered_waiting_time = none ∧ o.offered_driving_time = none ∧ o.fare = none
        ∧ get_current_offer exPrq.rid s' = some o)
    ∧ (∃ o s', create_user_offer exPrq 5 (some c6Plan) (fun _ _ _ => 250) (initState 1 0 60) =
          some (o, s')
        ∧ o.offered_waiting_time = some (120 - exPrq.rq_time)
        ∧ o.offered_driving_time = some (300 - 120)
        ∧ o.fare = some 250
        ∧ get_current_offer exPrq.rid s' = some o) :=
  C6_offer_distinguishable (initState 1 0 60) 0 (by decide) exPrq c6Plan (120, 300) 5 5
    (fun _ _ _ => 250) (initState 1 0 60) (initState 1 0 60) (by decide)

/-! ## Claim C9: change of time constraints -/

/-- The exceedance flag is `false` exactly when the new window is contained
in the old one. -/
theorem exceedsTW_eq_false_iff (prq : PlanRequest) (new_lpt : Int) (new_ept : Option Int) :
    exceedsTW prq new_lpt new_ept = false ↔
      (new_lpt ≤ prq.t_pu_latest ∧ ∀ e, new_ept = some e → prq.t_pu_earliest ≤ e) := by
  unfold exceedsTW
  cases new_ept with
  | none => split_ifs <;> simp_all
  | some e => split_ifs <;> simp_all

/-- C9: `change_prq_time_constraints` computes the `exceeds_former_window`
flag as false exactly when the new pickup window is contained in the old
one; it forwards the updated request and the flag to the Batch Optimizer
whether or not the request is assigned; and it performs the keep-feasible
plan update exactly when an assigned vehicle exists. -/
theorem C9_change_time_constraints (t : Int) (rid : Nat) (new_lpt : Int)
    (new_ept : Option Int) (s : FleetCtrlState) (prq : PlanRequest)
    (h : dlookup s.rq_dict rid = some prq) :
    ∃ s', change_prq_time_constraints t rid new_lpt new_ept s = some s'
      ∧ RPBOEvent.register_change_in_time_constraints rid
          (dlookup s.rid_to_assigned_vid rid) (exceedsTW prq new_lpt new_ept) ∈ s'.rpbo_events
      ∧ (exceedsTW prq new_lpt new_ept = false ↔
          (new_lpt ≤ prq.t_pu_latest ∧ ∀ e, new_ept = some e → prq.t_pu_earliest ≤ e))
      ∧ (∀ vid, dlookup s.rid_to_assigned_vid rid = some vid →
          (vid, rid, true) ∈ s'.plan_updates)
      ∧ (dlookup s.rid_to_assigned_vid rid = none → s'.plan_updates = s.plan_updates)
      ∧ dlookup s'.rq_dict rid =
          some (set_new_pickup_time_constraint prq new_lpt new_ept) := by
  cases hv : dlookup s.rid_to_assigned_vid rid with
  | none =>
    simp only [change_prq_time_constraints, h, hv, emitEvent]
    refine ⟨_, rfl, ?_, exceedsTW_eq_false_iff prq new_lpt new_ept, ?_, ?_, ?_⟩ <;>
      simp [dlookup_dinsert_self]
  | some vid0 =>
    simp only [change_prq_time_constraints, h, hv, emitEvent]
    refine ⟨_, rfl, ?_, exceedsTW_eq_false_iff prq new_lpt new_ept, ?_, ?_, ?_⟩ <;>
      simp [dlookup_dinsert_self]

/-- Concrete state for the C9 witness: request 0 with window [0, 600],
assigned to vehicle 0. -/
def c9State : FleetCtrlState :=
  { initState 1 0 60 with
    rq_dict := [(0, exPrq)]
    rid_to_assigned_vid := [(0, 0)] }

/-- Witness for C9: narrowing the window of assigned request 0 to
[10, 500]. -/
theorem C9_change_time_constraints_witness :
    ∃ s', change_prq_time_constraints 30 0 500 (some 10) c9State = some s'
      ∧ RPBOEvent.register_change_in_time_constraints 0 (some 0)
          (exceedsTW exPrq 500 (some 10)) ∈ s'.rpbo_events
      ∧ (exceedsTW exPrq 500 (some 10) = false ↔
          (500 ≤ exPrq.t_pu_latest ∧ ∀ e, (some 10 : Option Int) = some e →
            exPrq.t_pu_earliest ≤ e))
      ∧ (∀ vid, dlookup c9State.rid_to_assigned_vid 0 = some vid →
          (vid, 0, true) ∈ s'.plan_updates)
      ∧ (dlookup c9State.rid_to_assigned_vid 0 = none →
          s'.plan_updates = c9State.plan_updates)
      ∧ dlookup s'.rq_dict 0 = some (set_new_pickup_time_constraint exPrq 500 (some 10)) := by
  have h := C9_change_time_constraints 30 0 500 (some 10) c9State exPrq (by decide)
  simpa using h

/-! ## Claim C8: user_confirms_booking — corrected -/

/-- The condition under which confirm registers the request in the
reservation index: assigned, present and reservation-flagged. -/
def resCond (rid : Nat) (s : FleetCtrlState) : Bool :=
  match dlookup s.rid_to_assigned_vid rid with
  | none => false
  | some _ =>
    match dlookup s.rq_dict rid with
    | none => false
    | some prq => prq.reservation_flag

/-- Equality of the four controller-owned tables. -/
def tablesEq (s s' : FleetCtrlState) : Prop :=
  s.rq_dict = s'.rq_dict
  ∧ s.rid_to_assigned_vid = s'.rid_to_assigned_vid
  ∧ s.vid_with_reserved_rids = s'.vid_with_reserved_rids
  ∧ s.active_request_offers = s'.active_request_offers

theorem superConfirm_none {rid : Nat} {s : FleetCtrlState}
    (h : dlookup s.rq_dict rid = none) : superConfirm rid s = s := by
  simp [superConfirm, h]

theorem superConfirm_some {rid : Nat} {s : FleetCtrlState} {prq : PlanRequest}
    (h : dlookup s.rq_dict rid = some prq) :
    superConfirm rid s =
      { s with rq_dict := dinsert rid { prq with confirmed := true } s.rq_dict } := by
  simp [superConfirm, h]

theorem superConfirm_index (rid : Nat) (s : FleetCtrlState) :
    (superConfirm rid s).rid_to_assigned_vid = s.rid_to_assigned_vid := by
  unfold superConfirm
  cases h : dlookup s.rq_dict rid <;> simp

theorem superConfirm_res (rid : Nat) (s : FleetCtrlState) :
    (superConfirm rid s).vid_with_reserved_rids = s.vid_with_reserved_rids := by
  unfold superConfirm
  cases h : dlookup s.rq_dict rid <;> simp

theorem superConfirm_offers (rid : Nat) (s : FleetCtrlState) :
    (superConfirm rid s).active_request_offers = s.active_request_offers := by
  unfold superConfirm
  cases h : dlookup s.rq_dict rid <;> simp

theorem confirmed_true_update (q : PlanRequest) (h : q.confirmed = true) :
    ({ q with confirmed := true } : PlanRequest) = q := by
  cases q
  simp_all

/-- When the reservation-registration condition fails, confirm only marks
the request confirmed, notifies the optimizer and clears the offer. -/
theorem confirm_noRes (rid : Nat) (t : Int) (s : FleetCtrlState)
    (h : resCond rid s = false) :
    user_confirms_booking rid t s =
      { superConfirm rid s with
        sim_time := t
        rpbo_events := RPBOEvent.setRequestAssigned rid :: (superConfirm rid s).rpbo_events
        active_request_offers := derase (superConfirm rid s).active_request_offers rid } := by
  unfold user_confirms_booking
  cases hq : dlookup s.rq_dict rid with
  | none =>
    rw [superConfirm_none hq]
    cases hv : dlookup s.rid_to_assigned_vid rid with
    | none => simp [hv, emitEvent]
    | some vid0 => simp [hv, hq, emitEvent]
  | some prq =>
    rw [superConfirm_some hq]
    cases hv : dlookup s.rid_to_assigned_vid rid with
    | none => simp [hv, emitEvent]
    | some vid0 =>
      have hflag : prq.reservation_flag = false := by
        simpa [resCond, hv, hq] using h
      simp [hv, dlookup_dinsert_self, hflag, emitEvent]

/-- In every case — reservation-registered or not — confirm clears the
active offer for the request and notifies the Batch Optimizer that the
request is locked in. -/
theorem confirm_offer_event (rid : Nat) (t : Int) (s : FleetCtrlState) :
    dlookup (user_confirms_booking rid t s).active_request_offers rid = none
    ∧ RPBOEvent.setRequestAssigned rid ∈ (user_confirms_booking rid t s).rpbo_events := by
  simp only [user_confirms_booking, emitEvent]
  repeat' split
  all_goals exact ⟨dlookup_derase_self _ _, List.mem_cons_self _ _⟩

/-- When the reservation-registration condition holds, confirm appends the
rid to the assigned vehicle's reservation list. -/
theorem confirm_res (rid : Nat) (t : Int) (s : FleetCtrlState) (vid : Nat)
    (prq : PlanRequest)
    (h1 : dlookup s.rid_to_assigned_vid rid = some vid)
    (h2 : dlookup s.rq_dict rid = some prq)
    (h3 : prq.reservation_flag = true) :
    (user_confirms_booking rid t s).vid_with_reserved_rids =
      match dlookup s.vid_with_reserved_rids vid with
      | some l => dinsert vid (l ++ [rid]) s.vid_with_reserved_rids
      | none => dinsert vid [rid] s.vid_with_reserved_rids := by
  unfold user_confirms_booking
  rw [superConfirm_some h2]
  simp [h1, dlookup_dinsert_self, h3, emitEvent]

/-- C8 counterexample: reservation-flagged request 0 is assigned to vehicle
0; confirming it twice appends rid 0 to vehicle 0's reservation list twice,
so duplicate confirmation is not idempotent, contrary to the claim. -/
def c8Prq : PlanRequest := { exPrq with reservation_flag := true }

/-- Concrete state for the C8 counterexample. -/
def c8State : FleetCtrlState :=
  { initState 1 0 60 with
    rq_dict := [(0, c8Prq)]
    rid_to_assigned_vid := [(0, 0)] }

/-- C8 counterexample: duplicate confirmation changes the reservation index
again (the list for vehicle 0 becomes `[0, 0]` instead of `[0]`), so the
end state differs from a single confirmation. -/
theorem C8_counterexample :
    (user_confirms_booking 0 5 (user_confirms_booking 0 5 c8State)).vid_with_reserved_rids ≠
      (user_confirms_booking 0 5 c8State).vid_with_reserved_rids := by
  decide

/-- C8 amended: on every state, confirm notifies the Batch Optimizer
(`setRequestAssigned`) and clears the active offer — unconditionally, in
particular for a reservation-flagged assigned request; it registers the
request in the per-vehicle reservation index exactly when it is
reservation-flagged and present in both the assignment index and the
request table (state `sB`; on a state `sA` where the condition fails the
reservation index is untouched); every access is guarded, so an absent
request or offer is a no-op rather than a fault (the model is a total
function); and duplicate confirmation is idempotent on the controller
tables when the reservation-registration condition does not hold — when it
holds, a duplicate confirmation appends the rid to the reservation list a
second time. -/
theorem C8_confirm_amended (rid : Nat) (t : Int) (sA sB : FleetCtrlState)
    (vidB : Nat) (prqB : PlanRequest)
    (hA : resCond rid sA = false)
    (hB1 : dlookup sB.rid_to_assigned_vid rid = some vidB)
    (hB2 : dlookup sB.rq_dict rid = some prqB)
    (hB3 : prqB.reservation_flag = true) :
    (∀ s0 : FleetCtrlState,
      dlookup (user_confirms_booking rid t s0).active_request_offers rid = none
      ∧ RPBOEvent.setRequestAssigned rid ∈ (user_confirms_booking rid t s0).rpbo_events)
    ∧ (user_confirms_booking rid t sA).vid_with_reserved_rids = sA.vid_with_reserved_rids
    ∧ rid ∈ (dlookup (user_confirms_booking rid t sB).vid_with_reserved_rids vidB).getD []
    ∧ tablesEq (user_confirms_booking rid t (user_confirms_booking rid t sA))
        (user_confirms_booking rid t sA) := by
  have hEA := confirm_noRes rid t sA hA
  have hA2 : resCond rid (user_confirms_booking rid t sA) = false := by
    rw [hEA]
    unfold resCond
    rw [superConfirm_index]
    cases hv : dlookup sA.rid_to_assigned_vid rid with
    | none => rfl
    | some vid0 =>
      cases hq : dlookup sA.rq_dict rid with
      | none => rw [superConfirm_none hq]; simp [hq]
      | some prq =>
        have hflag : prq.reservation_flag = false := by
          simpa [resCond, hv, hq] using hA
        rw [superConfirm_some hq]
        simp [dlookup_dinsert_self, hflag]
  have hEB := confirm_noRes rid t (user_confirms_booking rid t sA) hA2
  refine ⟨fun s0 => confirm_offer_event rid t s0, ?_, ?_, ?_⟩
  · rw [hEA]
    simp [superConfirm_res]
  · rw [confirm_res rid t sB vidB prqB hB1 hB2 hB3]
    cases hres : dlookup sB.vid_with_reserved_rids vidB <;>
      simp [hres, dlookup_dinsert_self]
  · rw [hEB, hEA]
    refine ⟨?_, ?_, ?_, ?_⟩
    · show (superConfirm rid { superConfirm rid sA with
        sim_time := t
        rpbo_events := RPBOEvent.setRequestAssigned rid :: (superConfirm rid sA).rpbo_events
        active_request_offers :=
          derase (superConfirm rid sA).active_request_offers rid }).rq_dict =
        (superConfirm rid sA).rq_dict
      cases hq : dlookup sA.rq_dict rid with
      | none =>
        rw [superConfirm_none hq]
        have hq2 : dlookup ({ sA with
            sim_time := t
            rpbo_events := RPBOEvent.setRequestAssigned rid :: sA.rpbo_events
            active_request_offers :=
              derase sA.active_request_offers rid } : FleetCtrlState).rq_dict rid = none := hq
        rw [superConfirm_none hq2]
      | some prq =>
        rw [superConfirm_some hq]
        have hq2 : dlookup ({ sA with
            rq_dict := dinsert rid { prq with confirmed := true } sA.rq_dict
            sim_time := t
            rpbo_events := RPBOEvent.setRequestAssigned rid ::
              ({ sA with rq_dict := dinsert rid { prq with confirmed := true } sA.rq_dict } :
                FleetCtrlState).rpbo_events
            active_request_offers := derase
              ({ sA with rq_dict := dinsert rid { prq with confirmed := true } sA.rq_dict } :
                FleetCtrlState).active_request_offers rid } : FleetCtrlState).rq_dict rid =
            some { prq with confirmed := true } := dlookup_dinsert_self _ _ _
        rw [superConfirm_some hq2]
        simp [confirmed_true_update { prq with confirmed := true } rfl,
          dinsert_dinsert_self]
    · rw [superConfirm_index]
    · rw [superConfirm_res]
    · show derase (superConfirm rid { superConfirm rid sA with
        sim_time := t
        rpbo_events := RPBOEvent.setRequestAssigned rid :: (superConfirm rid sA).rpbo_events
        active_request_offers :=
          derase (superConfirm rid sA).active_request_offers rid }).active_request_offers
          rid = derase (superConfirm rid sA).active_request_offers rid
      rw [superConfirm_offers]
      show derase (derase (superConfirm rid sA).active_request_offers rid) rid =
        derase (superConfirm rid sA).active_request_offers rid
      exact derase_derase _ _

/-- A state with an unassigned non-reservation request 0, for the C8
witness. -/
def c8wA : FleetCtrlState := { initState 1 0 60 with rq_dict := [(0, exPrq)] }

/-- Witness for the amended C8: the offer clearing and the optimizer
notification are instantiated at `c8State` — the reservation-flagged
assigned case — while `c8wA` exercises the untouched-reservation-index and
idempotence conjuncts. -/
theorem C8_confirm_amended_witness :
    dlookup (user_confirms_booking 0 5 c8State).active_request_offers 0 = none
    ∧ RPBOEvent.setRequestAssigned 0 ∈ (user_confirms_booking 0 5 c8State).rpbo_events
    ∧ (user_confirms_booking 0 5 c8wA).vid_with_reserved_rids = c8wA.vid_with_reserved_rids
    ∧ 0 ∈ (dlookup (user_confirms_booking 0 5 c8State).vid_with_reserved_rids 0).getD []
    ∧ tablesEq (user_confirms_booking 0 5 (user_confirms_booking 0 5 c8wA))
        (user_confirms_booking 0 5 c8wA) := by
  have h := C8_confirm_amended 0 5 c8wA c8State 0 c8Prq
    (by decide) (by decide) (by decide) (by decide)
  exact ⟨(h.1 c8State).1, (h.1 c8State).2, h.2.1, h.2.2.1, h.2.2.2⟩

/-! ## Claim C2: assignment-index consistency — corrected -/

/-- The half of the claimed invariant that holds: every request in the
assignment index is present in the request table. -/
def InvA (s : FleetCtrlState) : Prop :=
  ∀ rid vid, dlookup s.rid_to_assigned_vid rid = some vid →
    ∃ prq, dlookup s.rq_dict rid = some prq

/-- The claimed invariant in full, as a decidable check: every indexed
request is in the request table and appears in the pax-info mapping of its
vehicle's stored plan. -/
def assignmentConsistent (s : FleetCtrlState) : Bool :=
  s.rid_to_assigned_vid.all
    (fun p => (dlookup s.rq_dict p.1).isSome && ((paxRids (getVehPlan s p.2)).contains p.1))

theorem InvA_congr {s s' : FleetCtrlState} (h1 : s'.rq_dict = s.rq_dict)
    (h2 : s'.rid_to_assigned_vid = s.rid_to_assigned_vid) (h : InvA s) : InvA s' := by
  intro rid vid hl
  rw [h2] at hl
  rw [h1]
  exact h rid vid hl

theorem InvA_rq_dinsert {rqd : List (Nat × PlanRequest)} {idx : List (Nat × Nat)}
    (base : ∀ rid vid, dlookup idx rid = some vid → ∃ prq, dlookup rqd rid = some prq)
    (r : Nat) (q : PlanRequest) :
    ∀ rid vid, dlookup idx rid = some vid → ∃ prq, dlookup (dinsert r q rqd) rid = some prq := by
  intro rid vid hl
  by_cases hr : r = rid
  · subst hr
    exact ⟨q, dlookup_dinsert_self _ _ _⟩
  · obtain ⟨p, hp⟩ := base rid vid hl
    exact ⟨p, by rw [dlookup_dinsert_ne _ _ _ _ hr]; exact hp⟩

theorem InvA_dinsert_both {rqd : List (Nat × PlanRequest)} {idx : List (Nat × Nat)}
    (base : ∀ rid vid, dlookup idx rid = some vid → ∃ prq, dlookup rqd rid = some prq)
    (r : Nat) (q : PlanRequest) (v : Nat) :
    ∀ rid vid, dlookup (dinsert r v idx) rid = some vid →
      ∃ prq, dlookup (dinsert r q rqd) rid = some prq := by
  intro rid vid hl
  by_cases hr : r = rid
  · subst hr
    exact ⟨q, dlookup_dinsert_self _ _ _⟩
  · rw [dlookup_dinsert_ne _ _ _ _ hr] at hl
    obtain ⟨p, hp⟩ := base rid vid hl
    exact ⟨p, by rw [dlookup_dinsert_ne _ _ _ _ hr]; exact hp⟩

theorem InvA_derase_both {rqd : List (Nat × PlanRequest)} {idx : List (Nat × Nat)}
    (base : ∀ rid vid, dlookup idx rid = some vid → ∃ prq, dlookup rqd rid = some prq)
    (r : Nat) :
    ∀ rid vid, dlookup (derase idx r) rid = some vid →
      ∃ prq, dlookup (derase rqd r) rid = some prq := by
  intro rid vid hl
  by_cases hr : r = rid
  · subst hr
    rw [dlookup_derase_self] at hl
    exact Option.noConfusion hl
  · rw [dlookup_derase_ne _ _ _ hr] at hl
    obtain ⟨p, hp⟩ := base rid vid hl
    exact ⟨p, by rw [dlookup_derase_ne _ _ _ hr]; exact hp⟩

theorem InvA_user_request (prq : PlanRequest) (t : Int) (s : FleetCtrlState)
    (h : InvA s) : InvA (user_request prq t s) := by
  intro rid vid hl
  exact InvA_rq_dinsert h prq.rid prq rid vid hl

theorem InvA_superConfirm (rid0 : Nat) (s : FleetCtrlState) (h : InvA s) :
    InvA (superConfirm rid0 s) := by
  unfold superConfirm
  cases hq : dlookup s.rq_dict rid0 with
  | none => exact h
  | some prq =>
    intro rid vid hl
    exact InvA_rq_dinsert h rid0 _ rid vid hl

theorem confirm_rq_index (rid0 : Nat) (t : Int) (s : FleetCtrlState) :
    (user_confirms_booking rid0 t s).rq_dict = (superConfirm rid0 s).rq_dict
    ∧ (user_confirms_booking rid0 t s).rid_to_assigned_vid =
      (superConfirm rid0 s).rid_to_assigned_vid := by
  simp only [user_confirms_booking, emitEvent]
  repeat' split
  all_goals exact ⟨rfl, rfl⟩

theorem InvA_confirm (rid0 : Nat) (t : Int) (s : FleetCtrlState) (h : InvA s) :
    InvA (user_confirms_booking rid0 t s) := by
  have hc := confirm_rq_index rid0 t s
  exact InvA_congr hc.1 hc.2 (InvA_superConfirm rid0 s h)

theorem InvA_cancel (rid0 : Nat) (t : Int) (s : FleetCtrlState) (h : InvA s) :
    InvA (user_cancels_request rid0 t s) := by
  intro rid vid hl
  exact InvA_derase_both h rid0 rid vid hl

theorem InvA_boarding (rid0 vid0 : Nat) (t : Int) (s s' : FleetCtrlState)
    (hop : acknowledge_boarding rid0 vid0 t s = some s') (h : InvA s) : InvA s' := by
  simp only [acknowledge_boarding] at hop
  cases hq : dlookup s.rq_dict rid0 with
  | none => simp only [hq] at hop; exact Option.noConfusion hop
  | some prq =>
    simp only [hq] at hop
    injection hop with hop
    subst hop
    intro rid vid hl
    exact InvA_rq_dinsert h rid0 _ rid vid hl

theorem InvA_alighting (rid0 vid0 : Nat) (t : Int) (s s' : FleetCtrlState)
    (hop : acknowledge_alighting rid0 vid0 t s = some s') (h : InvA s) : InvA s' := by
  simp only [acknowledge_alighting] at hop
  cases hq : dlookup s.rq_dict rid0 with
  | none => simp only [hq] at hop; exact Option.noConfusion hop
  | some prq =>
    simp only [hq] at hop
    injection hop with hop
    subst hop
    intro rid vid hl
    exact InvA_derase_both h rid0 rid vid hl

theorem InvA_changeTC (t : Int) (rid0 : Nat) (nlpt : Int) (nept : Option Int)
    (s s' : FleetCtrlState)
    (hop : change_prq_time_constraints t rid0 nlpt nept s = some s') (h : InvA s) :
    InvA s' := by
  simp only [change_prq_time_constraints] at hop
  cases hq : dlookup s.rq_dict rid0 with
  | none => simp only [hq] at hop; exact Option.noConfusion hop
  | some prq =>
    simp only [hq] at hop
    cases hv : dlookup s.rid_to_assigned_vid rid0 with
    | none =>
      simp only [hv] at hop
      injection hop with hop
      subst hop
      intro rid vid hl
      exact InvA_rq_dinsert h rid0 _ rid vid hl
    | some v0 =>
      simp only [hv] at hop
      injection hop with hop
      subst hop
      intro rid vid hl
      exact InvA_rq_dinsert h rid0 _ rid vid hl

theorem InvA_applyPlanRids (vid : Nat) (plan : VehiclePlan) :
    ∀ (rids : List Nat) (s s' : FleetCtrlState),
      applyPlanRids vid plan rids s = some s' → InvA s → InvA s' := by
  intro rids
  induction rids with
  | nil =>
    intro s s' h hi
    simp [applyPlanRids] at h
    subst h
    exact hi
  | cons r rest ih =>
    intro s s' h hi
    simp only [applyPlanRids] at h
    cases h1 : dlookup s.rq_dict r with
    | none => simp only [h1] at h; exact Option.noConfusion h
    | some prq =>
      simp only [h1] at h
      cases h2 : dlookup plan.pax_info r with
      | none => simp only [h2] at h; exact Option.noConfusion h
      | some pt =>
        simp only [h2] at h
        refine ih _ _ h ?_
        intro rid vid2 hl
        exact InvA_dinsert_both hi r _ vid rid vid2 hl

theorem InvA_assign (vid : Nat) (plan : VehiclePlan) (t : Int) (internal : Bool)
    (s s' : FleetCtrlState) (hop : assign_vehicle_plan vid plan t internal s = some s')
    (h : InvA s) : InvA s' := by
  simp only [assign_vehicle_plan] at hop
  cases hap : applyPlanRids vid plan (paxRids plan)
      { s with veh_plans := s.veh_plans.set vid plan } with
  | none => simp only [hap, Option.map_none'] at hop; exact Option.noConfusion hop
  | some s2 =>
    simp only [hap, Option.map_some', Option.some.injEq] at hop
    subst hop
    have h2 : InvA s2 :=
      InvA_applyPlanRids vid plan _ _ _ hap (fun rid vid2 hl => h rid vid2 hl)
    intro rid vid2 hl
    exact h2 rid vid2 hl

theorem InvA_processVid (sol : Nat → Option VehiclePlan) (vid : Nat)
    (s s' : FleetCtrlState) (hop : processVid sol vid s = some s') (h : InvA s) :
    InvA s' := by
  simp only [processVid] at hop
  split at hop
  · injection hop with hop
    subst hop
    exact InvA_congr rfl rfl h
  · cases hsol : sol vid with
    | some p => simp only [hsol] at hop; exact InvA_assign _ _ _ _ _ _ hop h
    | none => simp only [hsol] at hop; exact InvA_assign _ _ _ _ _ _ hop h

theorem InvA_processVids (sol : Nat → Option VehiclePlan) :
    ∀ (L : List Nat) (s s' : FleetCtrlState),
      processVids sol L s = some s' → InvA s → InvA s' := by
  intro L
  induction L with
  | nil =>
    intro s s' h hi
    simp [processVids] at h
    subst h
    exact hi
  | cons v rest ih =>
    intro s s' h hi
    simp only [processVids] at h
    cases hpv : processVid sol v s with
    | none => simp only [hpv] at h; exact Option.noConfusion h
    | some s1 =>
      simp only [hpv] at h
      exact ih _ _ h (InvA_processVid sol v s s1 hpv hi)

theorem InvA_set_new (sol : Nat → Option VehiclePlan) (s s' : FleetCtrlState)
    (hop : set_new_assignments sol s = some s') (h : InvA s) : InvA s' :=
  InvA_processVids sol _ s s' hop h

theorem InvA_trigger (t : Int) (sol : Nat → Option VehiclePlan) (s s' : FleetCtrlState)
    (hop : call_time_trigger_request_batch t sol s = some s') (h : InvA s) : InvA s' := by
  simp only [call_time_trigger_request_batch] at hop
  by_cases hm : t % s.optimisation_time_step = 0
  · rw [if_pos hm] at hop
    cases hsn : set_new_assignments sol
        (emitEvent (RPBOEvent.computeNewVehicleAssignments t s.vid_finished_VRLs false
          s.new_travel_times_loaded) { s with sim_time := t }) with
    | none => rw [hsn] at hop; exact Option.noConfusion hop
    | some s3 =>
      rw [hsn] at hop
      injection hop with hop
      subst hop
      have h3 : InvA s3 := InvA_set_new sol _ s3 hsn (InvA_congr rfl rfl h)
      exact InvA_congr rfl rfl h3
  · rw [if_neg hm] at hop
    injection hop with hop
    subst hop
    exact InvA_congr rfl rfl h

/-- Reachability by the controller's lifecycle operations and assignment
application, from a fresh controller state. -/
inductive Reachable : FleetCtrlState → Prop where
  | init (n : Nat) (t0 step : Int) : Reachable (initState n t0 step)
  | submit {s : FleetCtrlState} (prq : PlanRequest) (t : Int) :
      Reachable s → Reachable (user_request prq t s)
  | confirm {s : FleetCtrlState} (rid : Nat) (t : Int) :
      Reachable s → Reachable (user_confirms_booking rid t s)
  | cancel {s : FleetCtrlState} (rid : Nat) (t : Int) :
      Reachable s → Reachable (user_cancels_request rid t s)
  | board {s s' : FleetCtrlState} (rid vid : Nat) (t : Int) :
      Reachable s → acknowledge_boarding rid vid t s = some s' → Reachable s'
  | alight {s s' : FleetCtrlState} (rid vid : Nat) (t : Int) :
      Reachable s → acknowledge_alighting rid vid t s = some s' → Reachable s'
  | changeTC {s s' : FleetCtrlState} (t : Int) (rid : Nat) (nlpt : Int) (nept : Option Int) :
      Reachable s → change_prq_time_constraints t rid nlpt nept s = some s' → Reachable s'
  | assign {s s' : FleetCtrlState} (vid : Nat) (plan : VehiclePlan) (t : Int) (internal : Bool) :
      Reachable s → assign_vehicle_plan vid plan t internal s = some s' → Reachable s'
  | reopt {s s' : FleetCtrlState} (sol : Nat → Option VehiclePlan) :
      Reachable s → set_new_assignments sol s = some s' → Reachable s'
  | trigger {s s' : FleetCtrlState} (t : Int) (sol : Nat → Option VehiclePlan) :
      Reachable s → call_time_trigger_request_batch t sol s = some s' → Reachable s'

/-- A plan serving request 0, used by the C2 scenario. -/
def c2planA : VehiclePlan := VehiclePlan.mk [(0, (10, 20))]

/-- C2 scenario, step 1: request 0 submitted to a one-vehicle fleet. -/
def c2s1 : FleetCtrlState := user_request exPrq 0 (initState 1 0 60)

/-- C2 scenario, step 2: vehicle 0 is assigned a plan serving request 0. -/
def c2s2 : FleetCtrlState :=
  (assign_vehicle_plan 0 c2planA 0 true c2s1).getD (initState 0 0 0)

/-- C2 scenario, step 3: vehicle 0 is reassigned the empty plan; request 0
keeps its stale assignment-index entry. -/
def c2s3 : FleetCtrlState :=
  (assign_vehicle_plan 0 emptyPlan 5 true c2s2).getD (initState 0 0 0)

/-- C2 counterexample: a state reachable by submit, assign, assign violates
the claimed invariant — request 0 is still in the assignment index (pointing
at vehicle 0), but vehicle 0's stored plan no longer carries request 0 in
its pax-info mapping. -/
theorem C2_counterexample :
    Reachable c2s3 ∧ assignmentConsistent c2s3 = false := by
  constructor
  · have h1 : Reachable c2s1 := Reachable.submit exPrq 0 (Reachable.init 1 0 60)
    have h2 : assign_vehicle_plan 0 c2planA 0 true c2s1 = some c2s2 := by decide
    have h3 : assign_vehicle_plan 0 emptyPlan 5 true c2s2 = some c2s3 := by decide
    exact Reachable.assign 0 emptyPlan 5 true (Reachable.assign 0 c2planA 0 true h1 h2) h3
  · decide

/-- C2 amended: at every state reachable by the lifecycle operations and
assignment application, every request id in the assignment index is present
in the request table. The second half of the claimed invariant — that the
indexed vehicle's stored plan carries the request in its pax-info mapping —
does not hold (a reassignment that drops a request leaves its index entry
stale, see the counterexample). -/
theorem Reachable_InvA : ∀ {s : FleetCtrlState}, Reachable s → InvA s := by
  intro s h
  induction h with
  | init n t0 step =>
    intro r v hl
    exact Option.noConfusion hl
  | submit prq t hr ih => exact InvA_user_request prq t _ ih
  | confirm rid0 t hr ih => exact InvA_confirm rid0 t _ ih
  | cancel rid0 t hr ih => exact InvA_cancel rid0 t _ ih
  | board rid0 vid0 t hr hop ih => exact InvA_boarding rid0 vid0 t _ _ hop ih
  | alight rid0 vid0 t hr hop ih => exact InvA_alighting rid0 vid0 t _ _ hop ih
  | changeTC t0 rid0 nlpt nept hr hop ih => exact InvA_changeTC t0 rid0 nlpt nept _ _ hop ih
  | assign vid0 plan t0 internal hr hop ih => exact InvA_assign vid0 plan t0 internal _ _ hop ih
  | reopt sol hr hop ih => exact InvA_set_new sol _ _ hop ih
  | trigger t0 sol hr hop ih => exact InvA_trigger t0 sol _ _ hop ih

theorem C2_index_in_request_table (s : FleetCtrlState) (h : Reachable s) (rid vid : Nat)
    (h2 : dlookup s.rid_to_assigned_vid rid = some vid) :
    ∃ prq, dlookup s.rq_dict rid = some prq :=
  Reachable_InvA h rid vid h2

/-- Witness for the amended C2 at the reachable state `c2s2` (request 0
assigned to vehicle 0). -/
theorem C2_index_in_request_table_witness :
    ∃ prq, dlookup c2s2.rq_dict 0 = some prq := by
  have h1 : Reachable c2s1 := Reachable.submit exPrq 0 (Reachable.init 1 0 60)
  have h2 : assign_vehicle_plan 0 c2planA 0 true c2s1 = some c2s2 := by decide
  exact C2_index_in_request_table c2s2 (Reachable.assign 0 c2planA 0 true h1 h2) 0 0 (by decide)

end FleetPy
